import Mathlib

/-!
Verification development for the `dsemu` datastore-emulator lifecycle
controller.  The repository contains two near-duplicate implementations of
the `Emulator` class:

* `src/dsemu/__init__.py` — the *default-host* variant (constructor takes
  `project`, `host`, endpoint paths and a `timeout`), embedded below in
  namespace `Dsemu.I`;
* `src/dsemu/wrapper.py` — the *optional-host* variant (no constructor
  arguments, `host`/`project_id` are nullable, bound environment-variable
  names are recorded in `_env_vars_set`), embedded below in namespace
  `Dsemu.W`.

External nondeterminism (HTTP responses, the parsed output of the
`env-init` subcommand, the location of the `gcloud` binary) is supplied by
a `World` oracle; the mutable process-wide state (environment variables,
the trace of HTTP requests attempted, the number of processes spawned and
the process handles terminated) is threaded through every operation as an
`Os` record.  Time inside the readiness-polling loop is measured in tenths
of a second: the loop body at iteration `n` runs at elapsed time
`interval * n`, matching `time.time() - t` after `n` executions of
`time.sleep(interval)`.
-/

namespace Dsemu

/-- The process environment, `os.environ` / `os.getenv` / `os.unsetenv`,
viewed as a finite map from variable names to values.  Both `os.environ`
assignment and `os.unsetenv` are modelled on this single map (the
process-level view of the environment, where both operations take
effect). -/
def EnvMap : Type := String → Option String

/-- `os.getenv(k)`. -/
def getEnv (e : EnvMap) (k : String) : Option String := e k

/-- `os.environ[k] = v`. -/
def setEnv (e : EnvMap) (k v : String) : EnvMap :=
  fun q => if q = k then some v else e q

/-- `os.unsetenv(k)`. -/
def unsetEnv (e : EnvMap) (k : String) : EnvMap :=
  fun q => if q = k then none else e q

/-- The outcome of one `urlopen` call: a 200 response, a non-200 response
with the given status code, or a connection-level failure (`URLError`). -/
inductive HttpOutcome where
  | ok : HttpOutcome
  | badStatus (code : Nat) : HttpOutcome
  | connError : HttpOutcome
deriving DecidableEq, Repr

/-- The exception classes the source can raise. -/
inductive Exc where
  /-- `EmulatorException` raised by `_request` on a non-200 status; carries
  the normalized endpoint name and the status code. -/
  | requestFailed (endpoint : String) (code : Nat) : Exc
  /-- `EmulatorException("confirm startup timed out")`. -/
  | startupTimeout : Exc
  /-- `EmulatorException("failed to parse env-init output")`. -/
  | parseFailed : Exc
  /-- `urllib.error.URLError` from `urlopen`. -/
  | urlError : Exc
  /-- `RuntimeError(msg)`. -/
  | runtimeError (msg : String) : Exc
  /-- `OSError(2, "binary not found", "gcloud")`. -/
  | binaryNotFound : Exc
deriving DecidableEq, Repr

/-- Membership in the Python class `EmulatorException`. -/
def Exc.isEmulatorException : Exc → Bool
  | .requestFailed _ _ => true
  | .startupTimeout => true
  | .parseFailed => true
  | _ => false

/-- Membership in the Python class `URLError`. -/
def Exc.isURLError : Exc → Bool
  | .urlError => true
  | _ => false

/-- Membership in the Python class `RuntimeError`. -/
def Exc.isRuntimeError : Exc → Bool
  | .runtimeError _ => true
  | _ => false

instance {ε α : Type} [DecidableEq ε] [DecidableEq α] :
    DecidableEq (Except ε α) := fun x y =>
  match x, y with
  | .error a, .error b =>
    if h : a = b then .isTrue (by rw [h]) else .isFalse (by simp [h])
  | .ok a, .ok b =>
    if h : a = b then .isTrue (by rw [h]) else .isFalse (by simp [h])
  | .error _, .ok _ => .isFalse (by simp)
  | .ok _, .error _ => .isFalse (by simp)

/-- One attempted HTTP request (the argument of `urlopen`). -/
structure Req where
  host : String
  path : String
  method : String
deriving DecidableEq, Repr

/-- Process-wide mutable state threaded through every operation. -/
structure Os where
  /-- The process environment. -/
  env : EnvMap
  /-- Trace of the HTTP requests attempted so far, in order. -/
  reqs : List Req
  /-- Index of the next HTTP request (consumes the `World.http` oracle). -/
  nextReq : Nat
  /-- Number of `subprocess.Popen` calls made so far; the `k`-th spawned
  process gets handle `k`. -/
  spawned : Nat
  /-- Handles on which `.terminate()` has been called, in order. -/
  terminated : List Nat

/-- External nondeterminism: the `k`-th HTTP request attempted gets
outcome `http k`; `envInit` is the parsed result of the `env-init`
subcommand's stdout (an external input: `some (host, emulator_host,
project_id)` when `_parse_env_init_output` succeeds, `none` when it
raises); `gcloudPath` is the result of `shutil.which("gcloud")`. -/
structure World where
  http : Nat → HttpOutcome
  envInit : Option (String × String × String)
  gcloudPath : Option String

/-- The endpoint-name normalization performed by `_request` when building
the error message for a non-200 response: `path.replace("/", "")` when the
path is non-empty (replacing the one-character pattern `"/"` with the
empty string, i.e. deleting every slash), else `"healthcheck"`. -/
def normalizePath (path : String) : String :=
  if path ≠ "" then ⟨path.data.filter (fun ch => ch ≠ '/')⟩ else "healthcheck"

/-- The shared body of `_request` once the target host is known: attempt
`urlopen(Request(host + path, method=method))`, recording the attempt,
then raise `URLError` on connection failure or `EmulatorException` on a
non-200 status. -/
def doRequest (w : World) (host path method : String) (o : Os) :
    Except Exc Unit × Os :=
  let o2 : Os := { o with reqs := o.reqs ++ [⟨host, path, method⟩],
                          nextReq := o.nextReq + 1 }
  match w.http o.nextReq with
  | .connError => (.error .urlError, o2)
  | .badStatus code => (.error (.requestFailed (normalizePath path) code), o2)
  | .ok => (.ok (), o2)

/-- `RESET_ENDPOINT`. -/
def RESET_ENDPOINT : String := "/reset"

/-- `SHUTDOWN_ENDPOINT`. -/
def SHUTDOWN_ENDPOINT : String := "/shutdown"

/-- `HEALTHCHECK_ENDPOINT`. -/
def HEALTHCHECK_ENDPOINT : String := ""

end Dsemu

namespace Dsemu.W

/-! The optional-host variant, `src/dsemu/wrapper.py`. -/

/-- The instance attributes of `wrapper.py`'s `Emulator`. -/
structure Ctrl where
  host : Option String
  project_id : Option String
  gcloud : Option String
  /-- `self._instance`: the handle of the owned spawned process. -/
  inst : Option Nat
  /-- `self._env_vars_set`: the set of environment-variable names this
  controller has bound, kept as a duplicate-free list. -/
  env_vars_set : List String
deriving DecidableEq, Repr

/-- `Emulator.__init__`. -/
def initial : Ctrl := ⟨none, none, none, none, []⟩

/-- `_get_host`. -/
def get_host (c : Ctrl) : Except Exc String :=
  match c.host with
  | none => .error (.runtimeError "host value is not set")
  | some h => .ok h

/-- `_request(path, method, host)`: resolve the target host (raising
`RuntimeError` via `_get_host` when no explicit host is given and
`self._host` is unset, before any request is attempted), then perform the
request. -/
def request (w : World) (path method : String) (hostArg : Option String)
    (c : Ctrl) (o : Os) : Except Exc Unit × Os :=
  match hostArg with
  | some h => doRequest w h path method o
  | none =>
    match get_host c with
    | .error e => (.error e, o)
    | .ok h => doRequest w h path method o

/-- `_is_healthy`: a healthcheck request, swallowing only `URLError`
(a non-200 status raises `EmulatorException`, which propagates). -/
def is_healthy (w : World) (c : Ctrl) (o : Os) : Except Exc Bool × Os :=
  match request w HEALTHCHECK_ENDPOINT "GET" none c o with
  | (.error .urlError, o2) => (.ok false, o2)
  | (.error e, o2) => (.error e, o2)
  | (.ok _, o2) => (.ok true, o2)

/-- `_is_already_running`: the reuse detector. -/
def is_already_running (w : World) (c : Ctrl) (o : Os) :
    Except Exc Bool × Ctrl × Os :=
  match getEnv o.env "DATASTORE_HOST" with
  | none => (.ok false, c, o)
  | some host =>
    match getEnv o.env "DATASTORE_PROJECT_ID" with
    | none => (.ok false, c, o)
    | some project_id =>
      match request w HEALTHCHECK_ENDPOINT "GET" (some host) c o with
      | (.error e, o2) =>
        if e.isEmulatorException || e.isURLError || e.isRuntimeError then
          (.ok false, c, o2)
        else
          (.error e, c, o2)
      | (.ok _, o2) =>
        (.ok true, { c with host := some host, project_id := some project_id }, o2)

/-- `_find_binary`. -/
def find_binary (w : World) : Except Exc String :=
  match w.gcloudPath with
  | none => .error .binaryNotFound
  | some g => .ok g

/-- `_get_binary`: resolve and cache the path of the external binary. -/
def get_binary (w : World) (c : Ctrl) : Except Exc String × Ctrl :=
  match c.gcloud with
  | some g => (.ok g, c)
  | none =>
    match find_binary w with
    | .error e => (.error e, c)
    | .ok g => (.ok g, { c with gcloud := some g })

/-- `set.add` on the duplicate-free list modelling `self._env_vars_set`. -/
def insertName (l : List String) (k : String) : List String :=
  if k ∈ l then l else l ++ [k]

/-- `_set_env_var(key, val)`. -/
def set_env_var (c : Ctrl) (o : Os) (key val : String) : Ctrl × Os :=
  ({ c with env_vars_set := insertName c.env_vars_set key },
   { o with env := setEnv o.env key val })

/-- `os.unsetenv` over a list of names (the draining loop of
`_unset_env_vars`). -/
def unsetAll (names : List String) (e : EnvMap) : EnvMap :=
  match names with
  | [] => e
  | k :: rest => unsetAll rest (unsetEnv e k)

/-- `_unset_env_vars`: pop every recorded name and unset it.  This helper
is defined in the source but never called from any code path. -/
def unset_env_vars (c : Ctrl) (o : Os) : Ctrl × Os :=
  ({ c with env_vars_set := [] },
   { o with env := unsetAll c.env_vars_set o.env })

/-- `_init_env`: run the `env-init` subcommand (resolving the binary),
parse its output, and bind `DATASTORE_EMULATOR_HOST` and
`DATASTORE_PROJECT_ID` via `_set_env_var`; returns `(host, project_id)`. -/
def init_env (w : World) (c : Ctrl) (o : Os) :
    Except Exc (String × String) × Ctrl × Os :=
  match get_binary w c with
  | (.error e, c2) => (.error e, c2, o)
  | (.ok _, c2) =>
    match w.envInit with
    | none => (.error .parseFailed, c2, o)
    | some (host, emulator_host, project_id) =>
      let p1 := set_env_var c2 o "DATASTORE_EMULATOR_HOST" emulator_host
      let p2 := set_env_var p1.1 p1.2 "DATASTORE_PROJECT_ID" project_id
      (.ok (host, project_id), p2.1, p2.2)

/-- The polling loop of `_confirm_startup`.  Iteration `n` runs at elapsed
time `5 * n` tenths of a second (the sleep interval is `0.5` seconds); the
source compares elapsed time against the literal `10` seconds (`100`
tenths), not against its `timeout` parameter. -/
def confirmLoop (w : World) (c : Ctrl) (o : Os) (n : Nat) :
    Except Exc Unit × Ctrl × Os :=
  match is_healthy w c o with
  | (.error e, o2) => (.error e, c, o2)
  | (.ok true, o2) => (.ok (), c, o2)
  | (.ok false, o2) =>
    if h : 100 ≤ 5 * n then (.error .startupTimeout, c, o2)
    else confirmLoop w c o2 (n + 1)
termination_by 100 - 5 * n
decreasing_by omega

/-- `_confirm_startup(timeout=10)`.  The `timeout` parameter is dead in
the source: the loop raises when elapsed time reaches the literal `10`
seconds regardless of `timeoutArg`. -/
def confirm_startup (w : World) (timeoutArg : Nat) (c : Ctrl) (o : Os) :
    Except Exc Unit × Ctrl × Os :=
  confirmLoop w c o 0

/-- `_start`: build the argument list (resolving the binary), derive
host/project and bind the env vars via `_init_env`, spawn the process,
then confirm startup. -/
def startSpawn (w : World) (c : Ctrl) (o : Os) : Except Exc Unit × Ctrl × Os :=
  match get_binary w c with
  | (.error e, c2) => (.error e, c2, o)
  | (.ok _, c2) =>
    match init_env w c2 o with
    | (.error e, c3, o3) => (.error e, c3, o3)
    | (.ok (host, project_id), c3, o3) =>
      let c4 := { c3 with host := some host, project_id := some project_id }
      let pid := o3.spawned
      let o4 := { o3 with spawned := o3.spawned + 1 }
      let c5 := { c4 with inst := some pid }
      confirm_startup w 10 c5 o4

/-- `start`. -/
def start (w : World) (c : Ctrl) (o : Os) : Except Exc Unit × Ctrl × Os :=
  match is_already_running w c o with
  | (.error e, c2, o2) => (.error e, c2, o2)
  | (.ok true, c2, o2) => (.ok (), c2, o2)
  | (.ok false, c2, o2) => startSpawn w c2 o2

/-- `stop`: when an owned instance is present *and* healthy, POST to the
shutdown endpoint, unset the two fixed env-var names, terminate the child
and drop the handle; in every non-raising case reset `host`, `project_id`
and the cached binary path. -/
def stop (w : World) (c : Ctrl) (o : Os) : Except Exc Unit × Ctrl × Os :=
  match c.inst with
  | none => (.ok (), { c with host := none, project_id := none, gcloud := none }, o)
  | some pid =>
    match is_healthy w c o with
    | (.error e, o2) => (.error e, c, o2)
    | (.ok false, o2) =>
      (.ok (), { c with host := none, project_id := none, gcloud := none }, o2)
    | (.ok true, o2) =>
      match request w SHUTDOWN_ENDPOINT "POST" none c o2 with
      | (.error e, o3) => (.error e, c, o3)
      | (.ok _, o3) =>
        let o4 := { o3 with
          env := unsetEnv (unsetEnv o3.env "DATASTORE_EMULATOR_HOST")
                   "DATASTORE_PROJECT_ID",
          terminated := o3.terminated ++ [pid] }
        (.ok (), { c with inst := none, host := none, project_id := none,
                          gcloud := none }, o4)

/-- `reset`. -/
def reset (w : World) (c : Ctrl) (o : Os) : Except Exc Unit × Ctrl × Os :=
  match request w RESET_ENDPOINT "POST" none c o with
  | (.error e, o2) => (.error e, c, o2)
  | (.ok _, o2) => (.ok (), c, o2)

end Dsemu.W

namespace Dsemu.I

/-! The default-host variant, `src/dsemu/__init__.py`. -/

/-- `DEFAULT_PROJECT`. -/
def DEFAULT_PROJECT : String := "test"

/-- `DEFAULT_HOST`. -/
def DEFAULT_HOST : String := "http://localhost:8088"

/-- `DEFAULT_TIMEOUT` (seconds). -/
def DEFAULT_TIMEOUT : Nat := 30

/-- The instance attributes of `__init__.py`'s `Emulator`. -/
structure Ctrl where
  project : String
  host : String
  reset_endpoint : String
  shutdown_endpoint : String
  healthcheck_endpoint : String
  /-- `self._timeout`, in seconds. -/
  timeout : Nat
  gcloud : Option String
  /-- `self._instance`. -/
  inst : Option Nat
deriving DecidableEq, Repr

/-- `Emulator.__init__(project, host, reset_endpoint, shutdown_endpoint,
healthcheck_endpoint, timeout)`. -/
def mk (project host reset_endpoint shutdown_endpoint healthcheck_endpoint :
    String) (timeout : Nat) : Ctrl :=
  ⟨project, host, reset_endpoint, shutdown_endpoint, healthcheck_endpoint,
   timeout, none, none⟩

/-- `Emulator()` with every constructor default. -/
def initial : Ctrl :=
  mk DEFAULT_PROJECT DEFAULT_HOST RESET_ENDPOINT SHUTDOWN_ENDPOINT
    HEALTHCHECK_ENDPOINT DEFAULT_TIMEOUT

/-- `_request(path, method, host)`: the target host defaults to
`self._host`, which is always a string in this variant. -/
def request (w : World) (path method : String) (hostArg : Option String)
    (c : Ctrl) (o : Os) : Except Exc Unit × Os :=
  doRequest w (hostArg.getD c.host) path method o

/-- `_is_healthy`: a healthcheck request, swallowing only `URLError`. -/
def is_healthy (w : World) (c : Ctrl) (o : Os) : Except Exc Bool × Os :=
  match request w c.healthcheck_endpoint "GET" none c o with
  | (.error .urlError, o2) => (.ok false, o2)
  | (.error e, o2) => (.error e, o2)
  | (.ok _, o2) => (.ok true, o2)

/-- `_is_already_running`: the reuse detector. -/
def is_already_running (w : World) (c : Ctrl) (o : Os) :
    Except Exc Bool × Ctrl × Os :=
  match getEnv o.env "DATASTORE_HOST" with
  | none => (.ok false, c, o)
  | some host =>
    match getEnv o.env "DATASTORE_PROJECT_ID" with
    | none => (.ok false, c, o)
    | some project =>
      match request w c.healthcheck_endpoint "GET" (some host) c o with
      | (.error e, o2) =>
        if e.isEmulatorException || e.isURLError || e.isRuntimeError then
          (.ok false, c, o2)
        else
          (.error e, c, o2)
      | (.ok _, o2) =>
        (.ok true, { c with host := host, project := project }, o2)

/-- The `_gcloud_binary` property: resolve `shutil.which("gcloud")` once
and cache it. -/
def gcloud_binary (w : World) (c : Ctrl) : Except Exc String × Ctrl :=
  match c.gcloud with
  | some g => (.ok g, c)
  | none =>
    match w.gcloudPath with
    | none => (.error .binaryNotFound, c)
    | some g => (.ok g, { c with gcloud := some g })

/-- `urlparse(s).netloc` for URLs of the `scheme://netloc[/path]` shape
(the only shape this variant feeds it). -/
def netloc (s : String) : String :=
  match s.splitOn "//" with
  | _ :: rest :: _ => (rest.splitOn "/").headD ""
  | _ => ""

/-- The polling loop of `_confirm_startup`.  Iteration `n` runs at elapsed
time `n` tenths of a second (the sleep interval is `0.1` seconds); the
source compares elapsed time against `self._timeout` seconds, i.e.
`10 * c.timeout` tenths. -/
def confirmLoop (w : World) (c : Ctrl) (o : Os) (n : Nat) :
    Except Exc Unit × Ctrl × Os :=
  match is_healthy w c o with
  | (.error e, o2) => (.error e, c, o2)
  | (.ok true, o2) => (.ok (), c, o2)
  | (.ok false, o2) =>
    if h : 10 * c.timeout ≤ n then (.error .startupTimeout, c, o2)
    else confirmLoop w c o2 (n + 1)
termination_by 10 * c.timeout - n
decreasing_by omega

/-- `_confirm_startup`: poll until healthy or `self._timeout` elapsed. -/
def confirm_startup (w : World) (c : Ctrl) (o : Os) :
    Except Exc Unit × Ctrl × Os :=
  confirmLoop w c o 0

/-- `_start`: resolve the binary while building the argument list, spawn
the process with explicit `--host-port`/`--project` flags, confirm
startup, and only then write `DATASTORE_EMULATOR_HOST` and
`DATASTORE_PROJECT_ID` into the environment. -/
def startSpawn (w : World) (c : Ctrl) (o : Os) : Except Exc Unit × Ctrl × Os :=
  let emulator_host := netloc c.host
  match gcloud_binary w c with
  | (.error e, c2) => (.error e, c2, o)
  | (.ok _, c2) =>
    let pid := o.spawned
    let o2 := { o with spawned := o.spawned + 1 }
    let c3 := { c2 with inst := some pid }
    match confirm_startup w c3 o2 with
    | (.error e, c4, o3) => (.error e, c4, o3)
    | (.ok _, c4, o3) =>
      let o4 := { o3 with
        env := setEnv (setEnv o3.env "DATASTORE_EMULATOR_HOST" emulator_host)
                 "DATASTORE_PROJECT_ID" c4.project }
      (.ok (), c4, o4)

/-- `start`. -/
def start (w : World) (c : Ctrl) (o : Os) : Except Exc Unit × Ctrl × Os :=
  match is_already_running w c o with
  | (.error e, c2, o2) => (.error e, c2, o2)
  | (.ok true, c2, o2) => (.ok (), c2, o2)
  | (.ok false, c2, o2) => startSpawn w c2 o2

/-- `_teardown_instance`: POST to the shutdown endpoint only when healthy,
then unset the two fixed env-var names.  The process handle is neither
terminated nor cleared in this variant. -/
def teardown_instance (w : World) (c : Ctrl) (o : Os) :
    Except Exc Unit × Ctrl × Os :=
  match is_healthy w c o with
  | (.error e, o2) => (.error e, c, o2)
  | (.ok true, o2) =>
    match request w c.shutdown_endpoint "POST" none c o2 with
    | (.error e, o3) => (.error e, c, o3)
    | (.ok _, o3) =>
      (.ok (), c, { o3 with
        env := unsetEnv (unsetEnv o3.env "DATASTORE_EMULATOR_HOST")
                 "DATASTORE_PROJECT_ID" })
  | (.ok false, o2) =>
    (.ok (), c, { o2 with
      env := unsetEnv (unsetEnv o2.env "DATASTORE_EMULATOR_HOST")
               "DATASTORE_PROJECT_ID" })

/-- `stop`. -/
def stop (w : World) (c : Ctrl) (o : Os) : Except Exc Unit × Ctrl × Os :=
  match c.inst with
  | none => (.ok (), c, o)
  | some _ => teardown_instance w c o

/-- `reset`. -/
def reset (w : World) (c : Ctrl) (o : Os) : Except Exc Unit × Ctrl × Os :=
  match request w c.reset_endpoint "POST" none c o with
  | (.error e, o2) => (.error e, c, o2)
  | (.ok _, o2) => (.ok (), c, o2)

end Dsemu.I

namespace Dsemu

/-! ## Concrete fixtures used by the claim theorems -/

/-- A world in which every HTTP request succeeds with status 200, the
`env-init` output parses to host `http://localhost:8081` /
`DATASTORE_EMULATOR_HOST=localhost:8081` / project `test`, and the
`gcloud` binary is found. -/
def wOk : World :=
  ⟨fun _ => .ok, some ("http://localhost:8081", "localhost:8081", "test"),
   some "/usr/bin/gcloud"⟩

/-- Like `wOk`, but every HTTP request fails at the connection level
(`URLError`): the emulator never becomes reachable. -/
def wDown : World :=
  ⟨fun _ => .connError,
   some ("http://localhost:8081", "localhost:8081", "test"),
   some "/usr/bin/gcloud"⟩

/-- Like `wOk`, but only the first HTTP request returns 200; every later
one returns status 500. -/
def wPostFail : World :=
  ⟨fun n => if n = 0 then .ok else .badStatus 500,
   some ("http://localhost:8081", "localhost:8081", "test"),
   some "/usr/bin/gcloud"⟩

/-- A world whose healthcheck first succeeds on the 11th poll (request
index 10), i.e. at elapsed time 5.0 seconds in the optional-host
variant's polling loop. -/
def wPulse : World :=
  ⟨fun n => if n = 10 then .ok else .connError, none, none⟩

/-- The empty process environment. -/
def emptyEnv : EnvMap := fun _ => none

/-- A fresh `Os` state (no requests, no spawns) over the environment
`e`. -/
def osWith (e : EnvMap) : Os := ⟨e, [], 0, 0, []⟩

/-- An optional-host controller in the `Running(owned)` shape a
successful spawn-path `start()` produces: adopted host and project, a
cached binary path, the owned process handle `0`, and both bound
variable names recorded. -/
def cRun : W.Ctrl :=
  ⟨some "http://localhost:8081", some "test", some "/usr/bin/gcloud", some 0,
   ["DATASTORE_EMULATOR_HOST", "DATASTORE_PROJECT_ID"]⟩

/-- A default-host controller owning the spawned process `0`. -/
def cIRun : I.Ctrl := { I.initial with inst := some 0 }

/-- The process environment after a spawn-path `start()`: both
controller-bound variables present. -/
def envRun : EnvMap :=
  setEnv (setEnv emptyEnv "DATASTORE_EMULATOR_HOST" "localhost:8081")
    "DATASTORE_PROJECT_ID" "test"

/-- The `Os` state matching `cRun`/`envRun`: one process spawned, no
terminations. -/
def oRun : Os := ⟨envRun, [], 0, 1, []⟩

/-! ## Claim C1 -/

/-- C1: the claim says `stop()` on a `Running(owned)` controller unbinds
the controller-bound environment variables and terminates the child
process unconditionally, even when the pre-shutdown healthcheck reports
the instance unhealthy and even when the shutdown POST raises.  The code
does neither: in the optional-host variant an unhealthy instance makes
`stop()` return without unsetting anything, without terminating and
without dropping the handle, and a failing shutdown POST propagates as an
error before the unset/terminate statements run; in the default-host
variant a failing shutdown POST likewise propagates before the unsets,
and `_teardown_instance` never terminates or clears the handle even on
its clean path. -/
theorem claim_C1_stop_not_unconditional :
    ((W.stop wDown cRun oRun).1 = .ok ()
      ∧ getEnv (W.stop wDown cRun oRun).2.2.env "DATASTORE_EMULATOR_HOST"
          = some "localhost:8081"
      ∧ getEnv (W.stop wDown cRun oRun).2.2.env "DATASTORE_PROJECT_ID"
          = some "test"
      ∧ (W.stop wDown cRun oRun).2.2.terminated = []
      ∧ (W.stop wDown cRun oRun).2.1.inst = some 0)
    ∧ ((W.stop wPostFail cRun oRun).1 = .error (.requestFailed "shutdown" 500)
      ∧ getEnv (W.stop wPostFail cRun oRun).2.2.env "DATASTORE_EMULATOR_HOST"
          = some "localhost:8081"
      ∧ (W.stop wPostFail cRun oRun).2.2.terminated = []
      ∧ (W.stop wPostFail cRun oRun).2.1.inst = some 0)
    ∧ ((I.stop wPostFail cIRun oRun).1 = .error (.requestFailed "shutdown" 500)
      ∧ getEnv (I.stop wPostFail cIRun oRun).2.2.env "DATASTORE_EMULATOR_HOST"
          = some "localhost:8081"
      ∧ (I.stop wDown cIRun oRun).1 = .ok ()
      ∧ (I.stop wDown cIRun oRun).2.2.terminated = []
      ∧ (I.stop wDown cIRun oRun).2.1.inst = some 0) := by
  refine ⟨⟨?_, ?_, ?_, ?_, ?_⟩, ⟨?_, ?_, ?_, ?_⟩, ⟨?_, ?_, ?_, ?_, ?_⟩⟩ <;> decide

/-! ## Claim C2 -/

/-- C2: the claim says a `start()` whose readiness poll never sees HTTP
200 fails with the startup-timeout error leaving no bound environment
variables behind.  In the optional-host variant `_init_env` binds
`DATASTORE_EMULATOR_HOST` and `DATASTORE_PROJECT_ID` before the spawn and
the poll, and no path unbinds them on failure (`_unset_env_vars` is never
called), so the timeout error propagates with both variables still bound
and still recorded in `_env_vars_set`. -/
theorem claim_C2_timeout_leaves_env_bound :
    (W.start wDown W.initial (osWith emptyEnv)).1 = .error .startupTimeout
    ∧ (W.start wDown W.initial (osWith emptyEnv)).2.1.env_vars_set
        = ["DATASTORE_EMULATOR_HOST", "DATASTORE_PROJECT_ID"]
    ∧ getEnv (W.start wDown W.initial (osWith emptyEnv)).2.2.env
        "DATASTORE_EMULATOR_HOST" = some "localhost:8081"
    ∧ getEnv (W.start wDown W.initial (osWith emptyEnv)).2.2.env
        "DATASTORE_PROJECT_ID" = some "test" := by
  refine ⟨?_, ?_, ?_, ?_⟩ <;>
  simp [W.start, W.is_already_running, W.startSpawn, W.get_binary,
    W.find_binary, W.init_env, W.set_env_var, W.insertName, W.confirm_startup,
    W.confirmLoop, W.is_healthy, W.request, W.get_host, doRequest, wDown,
    W.initial, osWith, emptyEnv, getEnv, setEnv, HEALTHCHECK_ENDPOINT]

/-! ## Claim C6 -/

/-- C6: the claim says the readiness loop raises the startup-timeout
error exactly when elapsed time exceeds the timeout supplied at
construction/call.  In the optional-host variant `_confirm_startup`'s
`timeout` parameter is dead: with a supplied timeout of 3 seconds and an
instance that first answers 200 on the 11th poll (elapsed 5.0 s ≥ 3 s)
the call succeeds instead of raising, and with an instance that never
answers it polls 21 times (the hard-coded 10 seconds at 0.5 s intervals)
before raising, instead of the 7 polls a 3-second bound allows. -/
theorem claim_C6_timeout_parameter_dead :
    ((W.confirm_startup wPulse 3 cRun (osWith emptyEnv)).1 = .ok ()
      ∧ (W.confirm_startup wPulse 3 cRun (osWith emptyEnv)).2.2.nextReq = 11
      ∧ 5 * 10 ≥ 10 * 3)
    ∧ ((W.confirm_startup wDown 3 cRun (osWith emptyEnv)).1
          = .error .startupTimeout
      ∧ (W.confirm_startup wDown 3 cRun (osWith emptyEnv)).2.2.nextReq = 21) := by
  refine ⟨⟨?_, ?_, by norm_num⟩, ?_, ?_⟩ <;>
  simp [W.confirm_startup, W.confirmLoop, W.is_healthy, W.request, W.get_host,
    doRequest, wPulse, wDown, cRun, osWith, HEALTHCHECK_ENDPOINT]

/-! ## Claim C7 -/

/-- C7: the claim says the set of bound environment-variable names
returns to empty after every successful teardown.  In the optional-host
variant a fully successful spawn-path `start()` followed by a fully
successful `stop()` (healthy instance, shutdown POST 200, env vars unset,
child terminated, handle dropped) still leaves `_env_vars_set` holding
both names: `stop()` never clears it and `_unset_env_vars` is never
called. -/
theorem claim_C7_bound_names_survive_teardown :
    (W.start wOk W.initial (osWith emptyEnv)).1 = .ok ()
    ∧ (W.start wOk W.initial (osWith emptyEnv)).2.1.inst = some 0
    ∧ (W.stop wOk (W.start wOk W.initial (osWith emptyEnv)).2.1
        (W.start wOk W.initial (osWith emptyEnv)).2.2).1 = .ok ()
    ∧ (W.stop wOk (W.start wOk W.initial (osWith emptyEnv)).2.1
        (W.start wOk W.initial (osWith emptyEnv)).2.2).2.1.inst = none
    ∧ (W.stop wOk (W.start wOk W.initial (osWith emptyEnv)).2.1
        (W.start wOk W.initial (osWith emptyEnv)).2.2).2.2.terminated = [0]
    ∧ getEnv (W.stop wOk (W.start wOk W.initial (osWith emptyEnv)).2.1
        (W.start wOk W.initial (osWith emptyEnv)).2.2).2.2.env
        "DATASTORE_EMULATOR_HOST" = none
    ∧ (W.stop wOk (W.start wOk W.initial (osWith emptyEnv)).2.1
        (W.start wOk W.initial (osWith emptyEnv)).2.2).2.1.env_vars_set
        = ["DATASTORE_EMULATOR_HOST", "DATASTORE_PROJECT_ID"] := by
  refine ⟨?_, ?_, ?_, ?_, ?_, ?_, ?_⟩ <;>
  simp [W.start, W.is_already_running, W.startSpawn, W.get_binary,
    W.find_binary, W.init_env, W.set_env_var, W.insertName, W.confirm_startup,
    W.confirmLoop, W.is_healthy, W.request, W.get_host, doRequest, W.stop,
    wOk, W.initial, osWith, emptyEnv, getEnv, setEnv, unsetEnv,
    HEALTHCHECK_ENDPOINT, SHUTDOWN_ENDPOINT]

/-! ## Claim C9 -/

/-- C9: on a freshly constructed controller (either variant), `stop()`
performs no HTTP request, no environment mutation and no process action,
leaves the controller state unchanged, and does not raise. -/
theorem claim_C9_stop_fresh_noop (w : World) (o : Os) :
    W.stop w W.initial o = (.ok (), W.initial, o)
    ∧ I.stop w I.initial o = (.ok (), I.initial, o) :=
  ⟨rfl, rfl⟩

end Dsemu

namespace Dsemu

/-! ## Claim C3 -/

/-- An initial environment that already contains one of the names the
controller binds. -/
def ePre : EnvMap := setEnv emptyEnv "DATASTORE_EMULATOR_HOST" "preexisting"

/-- C3 counterexample: the claim quantifies over *every* initial process
environment, but when `DATASTORE_EMULATOR_HOST` is already present before
`start()`, the spawn path overwrites it and the teardown deletes it, so
after a fully successful `start()`/`stop()` round trip the pre-existing
variable is missing. -/
theorem claim_C3_counterexample :
    getEnv ePre "DATASTORE_EMULATOR_HOST" = some "preexisting"
    ∧ (W.start wOk W.initial (osWith ePre)).1 = .ok ()
    ∧ (W.stop wOk (W.start wOk W.initial (osWith ePre)).2.1
        (W.start wOk W.initial (osWith ePre)).2.2).1 = .ok ()
    ∧ getEnv (W.stop wOk (W.start wOk W.initial (osWith ePre)).2.1
        (W.start wOk W.initial (osWith ePre)).2.2).2.2.env
        "DATASTORE_EMULATOR_HOST" = none := by
  refine ⟨by decide, ?_, ?_, ?_⟩ <;>
  simp [W.start, W.is_already_running, W.startSpawn, W.get_binary,
    W.find_binary, W.init_env, W.set_env_var, W.insertName, W.confirm_startup,
    W.confirmLoop, W.is_healthy, W.request, W.get_host, doRequest, W.stop,
    wOk, W.initial, osWith, emptyEnv, ePre, getEnv, setEnv, unsetEnv,
    HEALTHCHECK_ENDPOINT, SHUTDOWN_ENDPOINT]

/-- C3 amended: for every initial environment in which the two names the
controller binds, `DATASTORE_EMULATOR_HOST` and `DATASTORE_PROJECT_ID`,
are absent (with the project variable absent the reuse detector is
negative whether or not `DATASTORE_HOST` is present, so the run takes the
spawn path), and for every world in which the binary resolves, the
`env-init` output parses, and every HTTP request of the run answers 200 —
in particular `stop()`'s pre-shutdown healthcheck and its shutdown POST,
without which `stop()` skips its unset statements or raises before them —
`start()` followed by `stop()` restores the environment exactly: every
variable maps to the same value as before. -/
theorem claim_C3_roundtrip_fresh_names (w : World) (e : EnvMap)
    (g host ehost project : String)
    (hw : ∀ n, w.http n = .ok)
    (hg : w.gcloudPath = some g)
    (hi : w.envInit = some (host, ehost, project))
    (h2 : getEnv e "DATASTORE_EMULATOR_HOST" = none)
    (h3 : getEnv e "DATASTORE_PROJECT_ID" = none) :
    (W.start w W.initial (osWith e)).1 = .ok ()
    ∧ (W.stop w (W.start w W.initial (osWith e)).2.1
        (W.start w W.initial (osWith e)).2.2).1 = .ok ()
    ∧ ∀ k, getEnv (W.stop w (W.start w W.initial (osWith e)).2.1
        (W.start w W.initial (osWith e)).2.2).2.2.env k = getEnv e k := by
  simp only [getEnv] at h2 h3
  rcases hh : e "DATASTORE_HOST" with _ | dh
  all_goals refine ⟨?_, ?_, ?_⟩
  case _ =>
    simp [W.start, W.is_already_running, W.startSpawn, W.get_binary,
      W.find_binary, W.init_env, W.set_env_var, W.insertName, W.confirm_startup,
      W.confirmLoop, W.is_healthy, W.request, W.get_host, doRequest,
      W.initial, osWith, getEnv, hh, h3, hw, hg, hi, HEALTHCHECK_ENDPOINT]
  case _ =>
    simp [W.start, W.is_already_running, W.startSpawn, W.get_binary,
      W.find_binary, W.init_env, W.set_env_var, W.insertName, W.confirm_startup,
      W.confirmLoop, W.is_healthy, W.request, W.get_host, doRequest, W.stop,
      W.initial, osWith, getEnv, hh, h3, hw, hg, hi, HEALTHCHECK_ENDPOINT,
      SHUTDOWN_ENDPOINT]
  case _ =>
    intro k
    simp only [W.start, W.is_already_running, W.startSpawn, W.get_binary,
      W.find_binary, W.init_env, W.set_env_var, W.insertName, W.confirm_startup,
      W.confirmLoop, W.is_healthy, W.request, W.get_host, doRequest, W.stop,
      W.initial, osWith, getEnv, hh, h3, hw, hg, hi, HEALTHCHECK_ENDPOINT,
      SHUTDOWN_ENDPOINT]
    simp [getEnv, setEnv, unsetEnv]
    split_ifs with hk1 hk2
    · subst hk1; exact h3.symm
    · subst hk2; exact h2.symm
    · rfl
  case _ =>
    simp [W.start, W.is_already_running, W.startSpawn, W.get_binary,
      W.find_binary, W.init_env, W.set_env_var, W.insertName, W.confirm_startup,
      W.confirmLoop, W.is_healthy, W.request, W.get_host, doRequest,
      W.initial, osWith, getEnv, hh, h3, hw, hg, hi, HEALTHCHECK_ENDPOINT]
  case _ =>
    simp [W.start, W.is_already_running, W.startSpawn, W.get_binary,
      W.find_binary, W.init_env, W.set_env_var, W.insertName, W.confirm_startup,
      W.confirmLoop, W.is_healthy, W.request, W.get_host, doRequest, W.stop,
      W.initial, osWith, getEnv, hh, h3, hw, hg, hi, HEALTHCHECK_ENDPOINT,
      SHUTDOWN_ENDPOINT]
  case _ =>
    intro k
    simp only [W.start, W.is_already_running, W.startSpawn, W.get_binary,
      W.find_binary, W.init_env, W.set_env_var, W.insertName, W.confirm_startup,
      W.confirmLoop, W.is_healthy, W.request, W.get_host, doRequest, W.stop,
      W.initial, osWith, getEnv, hh, h3, hw, hg, hi, HEALTHCHECK_ENDPOINT,
      SHUTDOWN_ENDPOINT]
    simp [getEnv, setEnv, unsetEnv]
    split_ifs with hk1 hk2
    · subst hk1; exact h3.symm
    · subst hk2; exact h2.symm
    · rfl

/-- A benign initial environment for the C3 witness. -/
def eBenign : EnvMap := setEnv emptyEnv "PATH" "/bin"

/-- Witness for C3's amended theorem at the concrete environment
`{PATH=/bin}` and the concrete all-200 world `wOk`. -/
theorem claim_C3_roundtrip_fresh_names_witness :
    wOk.http 0 = .ok ∧ wOk.http 1 = .ok ∧ wOk.http 2 = .ok
    ∧ wOk.gcloudPath = some "/usr/bin/gcloud"
    ∧ wOk.envInit = some ("http://localhost:8081", "localhost:8081", "test")
    ∧ getEnv eBenign "DATASTORE_EMULATOR_HOST" = none
    ∧ getEnv eBenign "DATASTORE_PROJECT_ID" = none
    ∧ (W.start wOk W.initial (osWith eBenign)).1 = .ok ()
    ∧ getEnv (W.stop wOk (W.start wOk W.initial (osWith eBenign)).2.1
        (W.start wOk W.initial (osWith eBenign)).2.2).2.2.env "PATH"
        = getEnv eBenign "PATH" :=
  ⟨rfl, rfl, rfl, rfl, rfl, by decide, by decide,
   (claim_C3_roundtrip_fresh_names wOk eBenign "/usr/bin/gcloud"
     "http://localhost:8081" "localhost:8081" "test" (fun _ => rfl) rfl rfl
     (by decide) (by decide)).1,
   (claim_C3_roundtrip_fresh_names wOk eBenign "/usr/bin/gcloud"
     "http://localhost:8081" "localhost:8081" "test" (fun _ => rfl) rfl rfl
     (by decide) (by decide)).2.2 "PATH"⟩

end Dsemu

namespace Dsemu

/-! ## Claim C4 -/

/-- C4 counterexample: the claim says a second `start()` with no
intervening `stop()` spawns no second process and leaves the
owned-process handle unchanged.  But a spawn-path `start()` binds only
`DATASTORE_EMULATOR_HOST`/`DATASTORE_PROJECT_ID`, never `DATASTORE_HOST`,
so the second call's reuse detector reads `DATASTORE_HOST`, finds
nothing, and spawns again: the process count rises from 1 to 2 and the
handle changes from `0` to `1`. -/
theorem claim_C4_counterexample :
    (W.start wOk W.initial (osWith emptyEnv)).1 = .ok ()
    ∧ (W.start wOk W.initial (osWith emptyEnv)).2.1.inst = some 0
    ∧ (W.start wOk W.initial (osWith emptyEnv)).2.2.spawned = 1
    ∧ (W.start wOk (W.start wOk W.initial (osWith emptyEnv)).2.1
        (W.start wOk W.initial (osWith emptyEnv)).2.2).1 = .ok ()
    ∧ (W.start wOk (W.start wOk W.initial (osWith emptyEnv)).2.1
        (W.start wOk W.initial (osWith emptyEnv)).2.2).2.1.inst = some 1
    ∧ (W.start wOk (W.start wOk W.initial (osWith emptyEnv)).2.1
        (W.start wOk W.initial (osWith emptyEnv)).2.2).2.2.spawned = 2 := by
  refine ⟨?_, ?_, ?_, ?_, ?_, ?_⟩ <;>
  simp [W.start, W.is_already_running, W.startSpawn, W.get_binary,
    W.find_binary, W.init_env, W.set_env_var, W.insertName, W.confirm_startup,
    W.confirmLoop, W.is_healthy, W.request, W.get_host, doRequest,
    wOk, W.initial, osWith, emptyEnv, getEnv, setEnv, HEALTHCHECK_ENDPOINT]

/-- C4 amended: while Running via the *reuse* path (both discovery
variables present and the advertised instance healthy), a second
`start()` is idempotent: it spawns nothing, binds nothing, leaves the
environment untouched and leaves the controller state exactly as the
first call left it. -/
theorem claim_C4_reuse_start_idempotent (e : EnvMap) (h p : String)
    (h1 : getEnv e "DATASTORE_HOST" = some h)
    (h2 : getEnv e "DATASTORE_PROJECT_ID" = some p) :
    (W.start wOk W.initial (osWith e)).1 = .ok ()
    ∧ (W.start wOk W.initial (osWith e)).2.2.spawned = 0
    ∧ (W.start wOk W.initial (osWith e)).2.1.env_vars_set = []
    ∧ (W.start wOk (W.start wOk W.initial (osWith e)).2.1
        (W.start wOk W.initial (osWith e)).2.2).1 = .ok ()
    ∧ (W.start wOk (W.start wOk W.initial (osWith e)).2.1
        (W.start wOk W.initial (osWith e)).2.2).2.1
        = (W.start wOk W.initial (osWith e)).2.1
    ∧ (W.start wOk (W.start wOk W.initial (osWith e)).2.1
        (W.start wOk W.initial (osWith e)).2.2).2.2.spawned = 0
    ∧ (W.start wOk (W.start wOk W.initial (osWith e)).2.1
        (W.start wOk W.initial (osWith e)).2.2).2.2.env = e := by
  simp only [getEnv] at h1 h2
  refine ⟨?_, ?_, ?_, ?_, ?_, ?_, ?_⟩ <;>
  simp [W.start, W.is_already_running, W.request, doRequest,
    wOk, W.initial, osWith, getEnv, h1, h2, HEALTHCHECK_ENDPOINT]

/-- An environment advertising a reusable instance at
`http://localhost:9999` with project `test`. -/
def eReuse : EnvMap :=
  setEnv (setEnv emptyEnv "DATASTORE_HOST" "http://localhost:9999")
    "DATASTORE_PROJECT_ID" "test"

/-- Witness for C4's amended theorem at the concrete environment
`{DATASTORE_HOST=http://localhost:9999, DATASTORE_PROJECT_ID=test}`. -/
theorem claim_C4_reuse_start_idempotent_witness :
    getEnv eReuse "DATASTORE_HOST" = some "http://localhost:9999"
    ∧ getEnv eReuse "DATASTORE_PROJECT_ID" = some "test"
    ∧ (W.start wOk W.initial (osWith eReuse)).1 = .ok ()
    ∧ (W.start wOk (W.start wOk W.initial (osWith eReuse)).2.1
        (W.start wOk W.initial (osWith eReuse)).2.2).2.2.spawned = 0
    ∧ (W.start wOk (W.start wOk W.initial (osWith eReuse)).2.1
        (W.start wOk W.initial (osWith eReuse)).2.2).2.1
        = (W.start wOk W.initial (osWith eReuse)).2.1 :=
  ⟨by decide, by decide,
   (claim_C4_reuse_start_idempotent eReuse "http://localhost:9999" "test"
     (by decide) (by decide)).1,
   (claim_C4_reuse_start_idempotent eReuse "http://localhost:9999" "test"
     (by decide) (by decide)).2.2.2.2.2.1,
   (claim_C4_reuse_start_idempotent eReuse "http://localhost:9999" "test"
     (by decide) (by decide)).2.2.2.2.1⟩

end Dsemu

namespace Dsemu

/-! ## Claim C5 -/

/-- C5: the reuse detector of the default-host variant.  For every world,
controller and process state: it never raises and never mutates the
environment (or spawns/terminates anything); if either discovery variable
is absent it returns negative touching nothing; if both are present but
the healthcheck against the advertised host fails in any modelled way
(connection error or non-200 status) it returns negative leaving the
controller unchanged; and if both are present and the healthcheck
succeeds it adopts the advertised host and project and reports reuse, in
which case `start()` returns successfully without spawning. -/
theorem claim_C5_reuse_detector (w : World) (c : I.Ctrl) (o : Os) :
    (∃ b, (I.is_already_running w c o).1 = .ok b)
    ∧ (I.is_already_running w c o).2.2.env = o.env
    ∧ (I.is_already_running w c o).2.2.spawned = o.spawned
    ∧ (I.is_already_running w c o).2.2.terminated = o.terminated
    ∧ (getEnv o.env "DATASTORE_HOST" = none →
        I.is_already_running w c o = (.ok false, c, o))
    ∧ (getEnv o.env "DATASTORE_PROJECT_ID" = none →
        I.is_already_running w c o = (.ok false, c, o))
    ∧ (∀ h p, getEnv o.env "DATASTORE_HOST" = some h →
        getEnv o.env "DATASTORE_PROJECT_ID" = some p →
        w.http o.nextReq ≠ .ok →
        (I.is_already_running w c o).1 = .ok false
        ∧ (I.is_already_running w c o).2.1 = c)
    ∧ (∀ h p, getEnv o.env "DATASTORE_HOST" = some h →
        getEnv o.env "DATASTORE_PROJECT_ID" = some p →
        w.http o.nextReq = .ok →
        (I.is_already_running w c o).1 = .ok true
        ∧ (I.is_already_running w c o).2.1
            = { c with host := h, project := p }
        ∧ (I.start w c o).1 = .ok ()
        ∧ (I.start w c o).2.1 = { c with host := h, project := p }
        ∧ (I.start w c o).2.2.spawned = o.spawned) := by
  rcases hh : getEnv o.env "DATASTORE_HOST" with _ | host
  · simp [I.is_already_running, hh, I.start]
  · rcases hp : getEnv o.env "DATASTORE_PROJECT_ID" with _ | project
    · simp [I.is_already_running, hh, hp, I.start]
    · rcases hr : w.http o.nextReq with _ | code
      · simp [I.is_already_running, hh, hp, hr, I.start, I.request, doRequest]
      · simp [I.is_already_running, hh, hp, hr, I.start, I.request, doRequest,
          Exc.isEmulatorException, Exc.isURLError, Exc.isRuntimeError]
      · simp [I.is_already_running, hh, hp, hr, I.start, I.request, doRequest,
          Exc.isEmulatorException, Exc.isURLError, Exc.isRuntimeError]

/-- Witness for C5 at the concrete scenario of the spec:
`DATASTORE_HOST=http://localhost:9999`, `DATASTORE_PROJECT_ID=test` and
an advertised host that answers 200. -/
theorem claim_C5_reuse_detector_witness :
    (I.is_already_running wOk I.initial (osWith eReuse)).1 = .ok true
    ∧ (I.is_already_running wOk I.initial (osWith eReuse)).2.1
        = { I.initial with host := "http://localhost:9999", project := "test" }
    ∧ (I.start wOk I.initial (osWith eReuse)).1 = .ok ()
    ∧ (I.start wOk I.initial (osWith eReuse)).2.2.spawned = 0 := by
  obtain ⟨-, -, -, -, -, -, -, hlast⟩ :=
    claim_C5_reuse_detector wOk I.initial (osWith eReuse)
  obtain ⟨a, b, d, f, g⟩ :=
    hlast "http://localhost:9999" "test" (by decide) (by decide) rfl
  exact ⟨a, b, d, g⟩

end Dsemu

namespace Dsemu

/-! ## Claim C8 -/

/-- An environment advertising an external instance at
`http://localhost:9999` with a non-default project `test2`. -/
def eExternal : EnvMap :=
  setEnv (setEnv emptyEnv "DATASTORE_HOST" "http://localhost:9999")
    "DATASTORE_PROJECT_ID" "test2"

/-- C8 counterexample: in the default-host variant, after `start()`
adopted an external instance via the reuse path, `stop()` sends no
request — but it also resets nothing: the adopted host and project stay
in place instead of returning to the empty/Stopped shape, contradicting
the claim's "still resets all controller state". -/
theorem claim_C8_counterexample :
    (I.start wOk I.initial (osWith eExternal)).1 = .ok ()
    ∧ (I.start wOk I.initial (osWith eExternal)).2.1.inst = none
    ∧ (I.start wOk I.initial (osWith eExternal)).2.1.host
        = "http://localhost:9999"
    ∧ (I.stop wOk (I.start wOk I.initial (osWith eExternal)).2.1
        (I.start wOk I.initial (osWith eExternal)).2.2).1 = .ok ()
    ∧ (I.stop wOk (I.start wOk I.initial (osWith eExternal)).2.1
        (I.start wOk I.initial (osWith eExternal)).2.2).2.2.reqs
        = (I.start wOk I.initial (osWith eExternal)).2.2.reqs
    ∧ (I.stop wOk (I.start wOk I.initial (osWith eExternal)).2.1
        (I.start wOk I.initial (osWith eExternal)).2.2).2.1.host
        = "http://localhost:9999"
    ∧ (I.stop wOk (I.start wOk I.initial (osWith eExternal)).2.1
        (I.start wOk I.initial (osWith eExternal)).2.2).2.1.project = "test2"
    ∧ (I.stop wOk (I.start wOk I.initial (osWith eExternal)).2.1
        (I.start wOk I.initial (osWith eExternal)).2.2).2.1 ≠ I.initial := by
  refine ⟨?_, ?_, ?_, ?_, ?_, ?_, ?_, ?_⟩ <;> decide

/-- C8 amended: on a controller with no owned-process handle, `stop()`
sends no HTTP request and terminates nothing in either variant; the
optional-host variant additionally clears `host`, `project_id` and the
cached binary path back to the Stopped shape, while the default-host
variant is a complete no-op, leaving the adopted host and project in
place. -/
theorem claim_C8_stop_external :
    (∀ (w : World) (c : W.Ctrl) (o : Os), c.inst = none →
      W.stop w c o
        = (.ok (), { c with host := none, project_id := none, gcloud := none },
           o))
    ∧ (∀ (w : World) (c : I.Ctrl) (o : Os), c.inst = none →
      I.stop w c o = (.ok (), c, o)) := by
  constructor
  · intro w c o h
    simp [W.stop, h]
  · intro w c o h
    simp [I.stop, h]

/-- An optional-host controller in the `Running(external)` shape the
reuse path produces. -/
def cExternal : W.Ctrl :=
  ⟨some "http://localhost:9999", some "test2", none, none, []⟩

/-- A default-host controller in the `Running(external)` shape the reuse
path produces. -/
def cIExternal : I.Ctrl :=
  { I.initial with host := "http://localhost:9999", project := "test2" }

/-- Witness for C8's amended theorem on concrete external-instance
states in both variants. -/
theorem claim_C8_stop_external_witness :
    W.stop wOk cExternal (osWith eExternal)
      = (.ok (), W.initial, osWith eExternal)
    ∧ I.stop wOk cIExternal (osWith eExternal)
      = (.ok (), cIExternal, osWith eExternal) :=
  ⟨claim_C8_stop_external.1 wOk cExternal (osWith eExternal) rfl,
   claim_C8_stop_external.2 wOk cIExternal (osWith eExternal) rfl⟩

/-! ## Claim C10 -/

/-- C10: `reset()` on a Stopped controller.  In the optional-host variant
the host is unset, so `_get_host` raises `RuntimeError("host value is not
set")` before any HTTP request is attempted and the controller and
process state are untouched; in the default-host variant the same call
issues exactly one POST to the configured reset path against the
configured host. -/
theorem claim_C10_reset_stopped :
    (∀ (w : World) (c : W.Ctrl) (o : Os), c.host = none →
      W.reset w c o = (.error (.runtimeError "host value is not set"), c, o))
    ∧ (∀ (w : World) (o : Os)
        (project host rp sp hp : String) (t : Nat),
      (I.reset w (I.mk project host rp sp hp t) o).2.2.reqs
          = o.reqs ++ [⟨host, rp, "POST"⟩]
      ∧ (I.reset w (I.mk project host rp sp hp t) o).2.2.nextReq
          = o.nextReq + 1) := by
  constructor
  · intro w c o h
    simp [W.reset, W.request, W.get_host, h]
  · intro w o project host rp sp hp t
    rcases hr : w.http o.nextReq with _ | code <;>
    simp [I.reset, I.request, I.mk, doRequest, hr]

/-- Witness for C10 on a fresh controller of each variant. -/
theorem claim_C10_reset_stopped_witness :
    W.reset wOk W.initial (osWith emptyEnv)
      = (.error (.runtimeError "host value is not set"), W.initial,
         osWith emptyEnv)
    ∧ (I.reset wOk I.initial (osWith emptyEnv)).2.2.reqs
        = [⟨"http://localhost:8088", "/reset", "POST"⟩] := by
  constructor
  · exact claim_C10_reset_stopped.1 wOk W.initial (osWith emptyEnv) rfl
  · have h := (claim_C10_reset_stopped.2 wOk (osWith emptyEnv)
      I.DEFAULT_PROJECT I.DEFAULT_HOST RESET_ENDPOINT SHUTDOWN_ENDPOINT
      HEALTHCHECK_ENDPOINT I.DEFAULT_TIMEOUT).1
    simpa [osWith, I.initial, I.DEFAULT_HOST, RESET_ENDPOINT] using h

end Dsemu
